import Mathlib

/-!
# NFLv2 — shallow embedding and verification

A shallow embedding of the rating-and-prediction core of the NFLv2
repository (JavaScript) together with proofs about it:

* `src/src/utils/stats-parser.js` — `parseStatValue`, `aggregateStats`,
  `calculateRankings`;
* `src/src/models/efficiency.js` — `calculateEfficiencyRating`,
  `calculateMatchupAdvantage`, `calculateSituationalAdjustment`,
  `predictGame`, `calculateLeagueAverages`;
* the unified predictor (`predict`, `predictGames`, `checkPrediction`).

JavaScript numbers are modelled as exact rationals, except where NaN or an
infinity can actually arise (the percentage field of a parsed "A-B" stat),
where the type `JSNum` adds the non-finite values.  JavaScript objects that
can lack a field are modelled with `Option`; `x || d` coalescing (which also
replaces a recorded `0`) is modelled explicitly.  Object maps whose key
insertion order matters (for ranking and league-average iteration) are
modelled as association lists.
-/

namespace NFLv2

/-! ## JavaScript number and string primitives -/

/-- A JavaScript number: a finite (here: rational) value, `NaN`, or a signed
infinity.  Finite arithmetic in the engine is exact on rationals; `JSNum` is
used where a non-finite value can genuinely appear. -/
inductive JSNum where
  | nan : JSNum
  | inf : JSNum
  | ninf : JSNum
  | fin : ℚ → JSNum
deriving DecidableEq, Repr

/-- JavaScript division on `JSNum` (signed zeroes are not modelled: a zero
divisor is treated as `+0`, so `a / 0` has the sign of `a`). -/
def JSNum.div : JSNum → JSNum → JSNum
  | .nan, _ => .nan
  | _, .nan => .nan
  | .inf, .inf => .nan
  | .inf, .ninf => .nan
  | .ninf, .inf => .nan
  | .ninf, .ninf => .nan
  | .inf, .fin q => if q < 0 then .ninf else .inf
  | .ninf, .fin q => if q < 0 then .inf else .ninf
  | .fin _, .inf => .fin 0
  | .fin _, .ninf => .fin 0
  | .fin a, .fin b =>
      if b = 0 then (if a = 0 then .nan else if a > 0 then .inf else .ninf)
      else .fin (a / b)

/-- JavaScript multiplication on `JSNum`. -/
def JSNum.mul : JSNum → JSNum → JSNum
  | .nan, _ => .nan
  | _, .nan => .nan
  | .inf, .inf => .inf
  | .inf, .ninf => .ninf
  | .ninf, .inf => .ninf
  | .ninf, .ninf => .inf
  | .inf, .fin q => if q = 0 then .nan else if q > 0 then .inf else .ninf
  | .fin q, .inf => if q = 0 then .nan else if q > 0 then .inf else .ninf
  | .ninf, .fin q => if q = 0 then .nan else if q > 0 then .ninf else .inf
  | .fin q, .ninf => if q = 0 then .nan else if q > 0 then .ninf else .inf
  | .fin a, .fin b => .fin (a * b)

/-- JavaScript addition on `JSNum`. -/
def JSNum.add : JSNum → JSNum → JSNum
  | .nan, _ => .nan
  | _, .nan => .nan
  | .inf, .ninf => .nan
  | .ninf, .inf => .nan
  | .inf, _ => .inf
  | _, .inf => .inf
  | .ninf, _ => .ninf
  | _, .ninf => .ninf
  | .fin a, .fin b => .fin (a + b)

/-- `n || 0` applied to a `parseInt` result: `NaN` (and `0` itself) coalesce
to `0`, any other finite value is kept.  `parseInt` never yields an
infinity. -/
def JSNum.orZero : JSNum → ℚ
  | .fin q => q
  | _ => 0

/-- `Math.round` on a finite value: `⌊x + 1/2⌋` (round half towards `+∞`). -/
def jsRound (x : ℚ) : ℤ := (x + 1/2).floor

/-- `x || d` for a possibly missing number: `undefined`, and a present `0`,
are falsy and replaced by the default. -/
def jsOrNum (x : Option ℚ) (d : ℚ) : ℚ :=
  match x with
  | none => d
  | some q => if q = 0 then d else q

/-- `x || d` for a number that is always present: a `0` is falsy and is
replaced by the default. -/
def jsOrQ (x d : ℚ) : ℚ := if x = 0 then d else x

/-- `x || d` for a possibly missing natural number (a rank): `undefined` and
`0` are falsy. -/
def jsOrNat (x : Option Nat) (d : Nat) : Nat :=
  match x with
  | none => d
  | some n => if n = 0 then d else n

/-- JavaScript `>` where either operand may be `undefined`: any comparison
with `undefined` is false. -/
def optGT (a b : Option ℚ) : Bool :=
  match a, b with
  | some x, some y => x > y
  | _, _ => false

/-- Base-10 value of a list of digit characters. -/
def digitsVal (cs : List Char) : ℕ :=
  cs.foldl (fun n c => n * 10 + (c.toNat - 48)) 0

/-- `parseInt(s)`: skip leading spaces, read an optional sign and then a
maximal run of decimal digits; `NaN` when no digit is found.  (Radix
prefixes such as `0x` are not modelled; no input in this development uses
them.) -/
def jsParseInt (s : String) : JSNum :=
  let cs := s.toList.dropWhile (fun c => c = ' ')
  let signedTail : ℚ × List Char :=
    if cs.headD ' ' = '-' then (-1, cs.tail)
    else if cs.headD ' ' = '+' then (1, cs.tail)
    else (1, cs)
  let ds := signedTail.2.takeWhile Char.isDigit
  if ds.isEmpty then .nan else .fin (signedTail.1 * (digitsVal ds : ℚ))

/-- Fractional value of the digits after a decimal point. -/
def fracVal (cs : List Char) : ℚ :=
  (digitsVal cs : ℚ) / (10 : ℚ) ^ cs.length

/-- `parseFloat(s)`: skip leading spaces, read an optional sign, then a
maximal decimal literal `digits[.digits]`; `NaN` when no digit is found.
(Exponent notation is not modelled; no input in this development uses
it.) -/
def jsParseFloat (s : String) : JSNum :=
  let cs := s.toList.dropWhile (fun c => c = ' ')
  let signAndRest : ℚ × List Char :=
    match cs with
    | '-' :: rest => (-1, rest)
    | '+' :: rest => (1, rest)
    | _ => (1, cs)
  let intPart := signAndRest.2.takeWhile Char.isDigit
  let rest := signAndRest.2.dropWhile Char.isDigit
  let fracPart :=
    match rest with
    | '.' :: r => r.takeWhile Char.isDigit
    | _ => []
  if intPart.isEmpty && fracPart.isEmpty then .nan
  else .fin (signAndRest.1 * ((digitsVal intPart : ℚ) + fracVal fracPart))

/-- `Number(s)` for a whole string: the empty (after trimming) string is `0`;
otherwise the whole string must be an optionally signed decimal literal,
else `NaN`. -/
def jsNumber (s : String) : JSNum :=
  let cs := (s.toList.dropWhile (fun c => c = ' ')).reverse.dropWhile (fun c => c = ' ') |>.reverse
  if cs.isEmpty then .fin 0
  else
    let signAndRest : ℚ × List Char :=
      match cs with
      | '-' :: rest => (-1, rest)
      | '+' :: rest => (1, rest)
      | _ => (1, cs)
    let intPart := signAndRest.2.takeWhile Char.isDigit
    let rest := signAndRest.2.dropWhile Char.isDigit
    let fracPart :=
      match rest with
      | '.' :: r => r.takeWhile Char.isDigit
      | _ => []
    let leftover :=
      match rest with
      | '.' :: r => r.dropWhile Char.isDigit
      | other => other
    if intPart.isEmpty && fracPart.isEmpty then .nan
    else if leftover.isEmpty then
      .fin (signAndRest.1 * ((digitsVal intPart : ℚ) + fracVal fracPart))
    else .nan

/-- `s.split(sep)` for a single-character separator, on character lists:
always returns at least one (possibly empty) group. -/
def splitOnChar (sep : Char) : List Char → List (List Char)
  | [] => [[]]
  | c :: rest =>
      let r := splitOnChar sep rest
      if c = sep then [] :: r else (c :: r.headD []) :: r.tail

/-- `s.split(sep)` on strings. -/
def jsSplit (s : String) (sep : Char) : List String :=
  (splitOnChar sep s.toList).map List.asString

/-- `s.replace(c, '')` with a one-character pattern: JavaScript `replace`
with a string pattern removes only the first occurrence. -/
def removeFirst (sep : Char) : List Char → List Char
  | [] => []
  | c :: rest => if c = sep then rest else c :: removeFirst sep rest

/-! ## `stats-parser.js`: `parseStatValue` -/

/-- A raw statistic value as received: a number or a string. -/
inductive RawStat where
  | num : ℚ → RawStat
  | str : String → RawStat
deriving DecidableEq, Repr

/-- A parsed statistic value: a number, a pass-through string, or the
structured made/attempts record produced for `"A-B"` values. -/
inductive StatValue where
  | num : JSNum → StatValue
  | str : String → StatValue
  | madeAttempts : ℚ → ℚ → JSNum → StatValue
deriving DecidableEq, Repr

/-- `parseStatValue` from `stats-parser.js`: numbers pass through; a string
containing a dash becomes `{made, attempts, percentage}` (percentage `0`
when the text after the first dash is literally `"0"`); a string containing
`%` becomes the parsed number; `"MM:SS"` becomes total seconds; otherwise a
plain numeric parse with the original string kept on failure. -/
def parseStatValue : RawStat → StatValue
  | .num q => .num (.fin q)
  | .str v =>
      if v.toList.contains '-' then
        let parts := jsSplit v '-'
        let p0 := parts.getD 0 ""
        let p1 := parts.getD 1 ""
        .madeAttempts (jsParseInt p0).orZero (jsParseInt p1).orZero
          (if p1 ≠ "0" then ((jsParseInt p0).div (jsParseInt p1)).mul (.fin 100)
           else .fin 0)
      else if v.toList.contains '%' then
        .num (.fin (jsParseFloat (List.asString (removeFirst '%' v.toList))).orZero)
      else if v.toList.contains ':' then
        let parts := jsSplit v ':'
        .num (((jsNumber (parts.getD 0 "")).mul (.fin 60)).add (jsNumber (parts.getD 1 "")))
      else
        match jsParseFloat v with
        | .fin q => .num (.fin q)
        | _ => .str v

/-! ## `constants.js`: team registry and model constants -/

/-- The keys of `NFL_TEAMS` from `constants.js`, in declaration order (the
iteration order of `Object.keys`). -/
def NFL_TEAMS : List String :=
  ["Arizona Cardinals", "Atlanta Falcons", "Baltimore Ravens", "Buffalo Bills",
   "Carolina Panthers", "Chicago Bears", "Cincinnati Bengals", "Cleveland Browns",
   "Dallas Cowboys", "Denver Broncos", "Detroit Lions", "Green Bay Packers",
   "Houston Texans", "Indianapolis Colts", "Jacksonville Jaguars", "Kansas City Chiefs",
   "Las Vegas Raiders", "Los Angeles Chargers", "Los Angeles Rams", "Miami Dolphins",
   "Minnesota Vikings", "New England Patriots", "New Orleans Saints", "New York Giants",
   "New York Jets", "Philadelphia Eagles", "Pittsburgh Steelers", "San Francisco 49ers",
   "Seattle Seahawks", "Tampa Bay Buccaneers", "Tennessee Titans", "Washington Commanders"]

/-- `MODEL_CONSTANTS.HOME_FIELD_ADVANTAGE` (2.5 points). -/
def HOME_FIELD_ADVANTAGE : ℚ := 2.5

/-- `MODEL_CONSTANTS.MATCHUP_WEIGHT` (0.15). -/
def MATCHUP_WEIGHT : ℚ := 0.15

/-- `MODEL_CONSTANTS.DEFAULT_THIRD_DOWN_PCT` (40). -/
def DEFAULT_THIRD_DOWN_PCT : ℚ := 40

/-- `MODEL_CONSTANTS.DEFAULT_RED_ZONE_PCT` (50). -/
def DEFAULT_RED_ZONE_PCT : ℚ := 50

/-- `MODEL_CONSTANTS.ELO_BASE_RATING` (1500). -/
def ELO_BASE_RATING : ℚ := 1500

/-! ## `stats-parser.js`: aggregation and rankings -/

/-- A parsed `{made, attempts}` efficiency statistic. -/
structure EffStat where
  made : ℚ
  attempts : ℚ
deriving DecidableEq, Repr

/-- Per-team stats of one game, in the shape `extractTeamStats` produces.
A missing numeric field is `none` (the aggregator coalesces it to `0`); the
efficiency fields are `none` when missing or not the structured shape (the
aggregator's `typeof === 'object'` guard skips both). -/
structure TeamGameStats where
  passingYards : Option ℚ := none
  rushingYards : Option ℚ := none
  totalYards : Option ℚ := none
  turnovers : Option ℚ := none
  thirdDownEff : Option EffStat := none
  redZoneEff : Option EffStat := none
  possessionTime : Option ℚ := none
  sacks : Option ℚ := none
deriving DecidableEq, Repr

/-- One game record: per-team stat blocks and an optional score map, both as
insertion-ordered association lists. -/
structure GameStat where
  stats : List (String × TeamGameStats) := []
  scores : Option (List (String × ℚ)) := none
deriving DecidableEq, Repr

/-- A team's season aggregate.  The derived per-game averages and
percentages are set only for teams with `games > 0` (on a zero-game team
they stay `undefined`, here `none`). -/
structure TeamAggregate where
  games : ℕ := 0
  passingYards : ℚ := 0
  rushingYards : ℚ := 0
  totalYards : ℚ := 0
  turnovers : ℚ := 0
  thirdDownAttempts : ℚ := 0
  thirdDownConversions : ℚ := 0
  redZoneAttempts : ℚ := 0
  redZoneScores : ℚ := 0
  possessionTime : ℚ := 0
  sacks : ℚ := 0
  pointsFor : ℚ := 0
  pointsAgainst : ℚ := 0
  wins : ℕ := 0
  losses : ℕ := 0
  avgPassingYards : Option ℚ := none
  avgRushingYards : Option ℚ := none
  avgTotalYards : Option ℚ := none
  avgPointsFor : Option ℚ := none
  avgPointsAgainst : Option ℚ := none
  thirdDownPct : Option ℚ := none
  redZonePct : Option ℚ := none
  record : String := ""
deriving DecidableEq, Repr

/-- Replace the value at a key of an association list, in place. -/
def updateAssoc (m : List (String × TeamAggregate)) (k : String)
    (f : TeamAggregate → TeamAggregate) : List (String × TeamAggregate) :=
  m.map (fun p => if p.1 = k then (p.1, f p.2) else p)

/-- One team's contribution of one game to its aggregate (the body of the
inner `forEach` of `aggregateStats`). -/
def accumulateTeam (game : GameStat) (teamName : String) (agg : TeamAggregate) :
    TeamAggregate :=
  let stats := (game.stats.lookup teamName).getD {}
  let teams := game.stats.map Prod.fst
  let agg := { agg with
    games := agg.games + 1
    passingYards := agg.passingYards + (stats.passingYards.getD 0)
    rushingYards := agg.rushingYards + (stats.rushingYards.getD 0)
    totalYards := agg.totalYards + (stats.totalYards.getD 0)
    turnovers := agg.turnovers + (stats.turnovers.getD 0)
    sacks := agg.sacks + (stats.sacks.getD 0)
    possessionTime := agg.possessionTime + (stats.possessionTime.getD 0) }
  let agg :=
    match stats.thirdDownEff with
    | some e => { agg with
        thirdDownConversions := agg.thirdDownConversions + e.made
        thirdDownAttempts := agg.thirdDownAttempts + e.attempts }
    | none => agg
  let agg :=
    match stats.redZoneEff with
    | some e => { agg with
        redZoneScores := agg.redZoneScores + e.made
        redZoneAttempts := agg.redZoneAttempts + e.attempts }
    | none => agg
  match game.scores with
  | none => agg
  | some scores =>
      let agg := { agg with pointsFor := agg.pointsFor + ((scores.lookup teamName).getD 0) }
      match teams.find? (fun t => t ≠ teamName) with
      | none => agg
      | some opponent =>
          let agg := { agg with
            pointsAgainst := agg.pointsAgainst + ((scores.lookup opponent).getD 0) }
          if optGT (scores.lookup teamName) (scores.lookup opponent) then
            { agg with wins := agg.wins + 1 }
          else if optGT (scores.lookup opponent) (scores.lookup teamName) then
            { agg with losses := agg.losses + 1 }
          else agg

/-- Fold one game into the aggregate map; a team name that is not in the map
(an unknown team) is logged and skipped. -/
def accumulateGame (acc : List (String × TeamAggregate)) (game : GameStat) :
    List (String × TeamAggregate) :=
  (game.stats.map Prod.fst).foldl
    (fun acc teamName =>
      match acc.lookup teamName with
      | none => acc
      | some _ => updateAssoc acc teamName (accumulateTeam game teamName))
    acc

/-- The post-pass of `aggregateStats`: derive averages and percentages for
teams with `games > 0`, and the `"wins-losses"` record string for all. -/
def finalizeAggregate (agg : TeamAggregate) : TeamAggregate :=
  let agg :=
    if agg.games > 0 then
      { agg with
        avgPassingYards := some (agg.passingYards / agg.games)
        avgRushingYards := some (agg.rushingYards / agg.games)
        avgTotalYards := some (agg.totalYards / agg.games)
        avgPointsFor := some (agg.pointsFor / agg.games)
        avgPointsAgainst := some (agg.pointsAgainst / agg.games)
        thirdDownPct := some (if agg.thirdDownAttempts > 0 then
            agg.thirdDownConversions / agg.thirdDownAttempts * 100 else 0)
        redZonePct := some (if agg.redZoneAttempts > 0 then
            agg.redZoneScores / agg.redZoneAttempts * 100 else 0) }
    else agg
  { agg with record := toString agg.wins ++ "-" ++ toString agg.losses }

/-- `aggregateStats` from `stats-parser.js`: initialize every registry team
to a zero aggregate, fold in each game, then derive averages. -/
def aggregateStats (gameStats : List GameStat) : List (String × TeamAggregate) :=
  let teamAggregates := NFL_TEAMS.map (fun t => (t, ({} : TeamAggregate)))
  ((gameStats.foldl accumulateGame teamAggregates).map
    (fun p => (p.1, finalizeAggregate p.2)))

/-- Insert before the first element that is not strictly smaller: the
insertion step of a stable sort. -/
def stableInsert (le : α → α → Bool) (a : α) : List α → List α
  | [] => [a]
  | b :: rest => if le a b then a :: b :: rest else b :: stableInsert le a rest

/-- A stable sort with respect to the boolean comparator `le`.  JavaScript's
`Array.prototype.sort` is stable, and for a comparator that is a total
preorder (all comparators used here compare rational metrics) every stable
sort produces the same list, so this insertion sort computes exactly the
source's sort result. -/
def stableSort (le : α → α → Bool) : List α → List α
  | [] => []
  | a :: rest => stableInsert le a (stableSort le rest)

/-- One ranking pass of `calculateRankings`: filter to teams with
`games > 0`, stable-sort by the metric (descending when `desc`), and assign
1-based ranks by sorted position. -/
def rankTeams (teamAggregates : List (String × TeamAggregate))
    (metric : TeamAggregate → Option ℚ) (desc : Bool) : List (String × ℕ) :=
  let value : String → ℚ := fun t =>
    (((teamAggregates.lookup t).getD {}) |> metric).getD 0
  let sorted := stableSort
    (fun a b => if desc then value b ≤ value a else value a ≤ value b)
    ((teamAggregates.map Prod.fst).filter
      (fun t => ((teamAggregates.lookup t).getD {}).games > 0))
  sorted.enum.map (fun p => (p.2, p.1 + 1))

/-- The four ordinal rankings. -/
structure Rankings where
  offensive : List (String × ℕ) := []
  defensive : List (String × ℕ) := []
  rushOffense : List (String × ℕ) := []
  passDefense : List (String × ℕ) := []

/-- `calculateRankings` from `stats-parser.js`.  Note the metrics actually
sorted on: `offensive` and `rushOffense` descend on the team's own yardage
averages, `defensive` ascends on `avgPointsAgainst`, and `passDefense`
ascends on `avgPassingYards` — the team's own per-game passing yards
gained (the aggregates do not record passing yards allowed). -/
def calculateRankings (teamAggregates : List (String × TeamAggregate)) : Rankings where
  offensive := rankTeams teamAggregates (fun a => a.avgTotalYards) true
  defensive := rankTeams teamAggregates (fun a => a.avgPointsAgainst) false
  rushOffense := rankTeams teamAggregates (fun a => a.avgRushingYards) true
  passDefense := rankTeams teamAggregates (fun a => a.avgPassingYards) false

/-! ## `efficiency.js`: league averages -/

/-- The league-average record `calculateLeagueAverages` returns.  A field is
`none` when the JavaScript computation would make it `NaN` (summing an
`undefined` average). -/
structure LeagueAverage where
  avgTotalYards : Option ℚ := none
  avgPointsFor : Option ℚ := none
  avgPointsAgainst : Option ℚ := none
  avgPassingYards : Option ℚ := none
  avgRushingYards : Option ℚ := none
deriving DecidableEq, Repr

/-- Addition propagating `undefined`/`NaN` as `none`. -/
def optAdd (a b : Option ℚ) : Option ℚ :=
  match a, b with
  | some x, some y => some (x + y)
  | _, _ => none

/-- Accumulator of `calculateLeagueAverages`. -/
structure LATotals where
  totalYards : Option ℚ := some 0
  pointsFor : Option ℚ := some 0
  pointsAgainst : Option ℚ := some 0
  passingYards : Option ℚ := some 0
  rushingYards : Option ℚ := some 0

/-- `calculateLeagueAverages` from `efficiency.js`: mean of each per-game
average over all teams with `games > 0`; a fixed fallback record when no
team has played. -/
def calculateLeagueAverages (teamAggregates : List (String × TeamAggregate)) :
    LeagueAverage :=
  let teamsWithGames := teamAggregates.filter (fun p => p.2.games > 0)
  if teamsWithGames.length = 0 then
    { avgTotalYards := some 350
      avgPointsFor := some 23
      avgPointsAgainst := some 23
      avgPassingYards := some 230
      avgRushingYards := some 120 }
  else
    let totals := teamsWithGames.foldl
      (fun (acc : LATotals) p =>
        { totalYards := optAdd acc.totalYards p.2.avgTotalYards
          pointsFor := optAdd acc.pointsFor p.2.avgPointsFor
          pointsAgainst := optAdd acc.pointsAgainst p.2.avgPointsAgainst
          passingYards := optAdd acc.passingYards p.2.avgPassingYards
          rushingYards := optAdd acc.rushingYards p.2.avgRushingYards })
      {}
    let count := teamsWithGames.length
    { avgTotalYards := totals.totalYards.map (fun x => x / count)
      avgPointsFor := totals.pointsFor.map (fun x => x / count)
      avgPointsAgainst := totals.pointsAgainst.map (fun x => x / count)
      avgPassingYards := totals.passingYards.map (fun x => x / count)
      avgRushingYards := totals.rushingYards.map (fun x => x / count) }

/-! ## `efficiency.js`: ratings, adjustments, prediction -/

/-- Confidence tier of a prediction. -/
inductive Confidence where
  | high : Confidence
  | medium : Confidence
  | low : Confidence
deriving DecidableEq, Repr

/-- The `confidenceLevels` table of the combiner: `{high: 3, medium: 2, low: 1}`. -/
def confidenceLevel : Confidence → ℕ
  | .high => 3
  | .medium => 2
  | .low => 1

/-- The view of a team's stats the efficiency model reads (`teamStats`
arguments in `efficiency.js`).  The per-game averages are finite numbers;
`thirdDownPct`/`redZonePct` may be missing (`none`), and a recorded value is
read through `||`-coalescing. -/
structure EffTeamStats where
  teamName : String := ""
  games : ℕ := 0
  avgTotalYards : ℚ := 0
  avgPointsFor : ℚ := 0
  avgPointsAgainst : ℚ := 0
  thirdDownPct : Option ℚ := none
  redZonePct : Option ℚ := none
deriving DecidableEq, Repr

/-- The league-average view the efficiency model reads (all fields
present and finite). -/
structure EffLeagueAverage where
  avgTotalYards : ℚ := 0
  avgPointsFor : ℚ := 0
  avgPointsAgainst : ℚ := 0
deriving DecidableEq, Repr

/-- `calculateEfficiencyRating` from `efficiency.js`: the Elo base rating
for a missing team or one with no games, otherwise the weighted sum of the
three league-normalized ratios, scaled by 1000. -/
def calculateEfficiencyRating (teamStats : Option EffTeamStats)
    (leagueAverage : EffLeagueAverage) : ℚ :=
  match teamStats with
  | none => ELO_BASE_RATING
  | some ts =>
      if ts.games = 0 then ELO_BASE_RATING
      else
        let offensiveEfficiency := ts.avgTotalYards / leagueAverage.avgTotalYards
        let defensiveEfficiency := leagueAverage.avgPointsAgainst / ts.avgPointsAgainst
        let scoringEfficiency := ts.avgPointsFor / leagueAverage.avgPointsFor
        (offensiveEfficiency * 0.35 + defensiveEfficiency * 0.35 +
          scoringEfficiency * 0.30) * 1000

/-- `calculateMatchupAdvantage` from `efficiency.js`: the team's
rush-offense rank against the opponent's pass-defense rank, a missing rank
defaulting to 16. -/
def calculateMatchupAdvantage (teamStats opponentStats : EffTeamStats)
    (rankings : Rankings) : ℚ :=
  let rushOffenseRank := jsOrNat (rankings.rushOffense.lookup teamStats.teamName) 16
  let oppPassDefenseRank := jsOrNat (rankings.passDefense.lookup opponentStats.teamName) 16
  ((oppPassDefenseRank : ℚ) - (rushOffenseRank : ℚ)) * MATCHUP_WEIGHT

/-- `calculateSituationalAdjustment` from `efficiency.js`: third-down and
red-zone percentage differences, each side read through `||`-coalescing
with the league-typical defaults (40 and 50). -/
def calculateSituationalAdjustment (teamStats opponentStats : EffTeamStats) : ℚ :=
  let teamThirdDown := jsOrNum teamStats.thirdDownPct DEFAULT_THIRD_DOWN_PCT
  let oppThirdDown := jsOrNum opponentStats.thirdDownPct DEFAULT_THIRD_DOWN_PCT
  let thirdDownDiff := teamThirdDown - oppThirdDown
  let teamRedZone := jsOrNum teamStats.redZonePct DEFAULT_RED_ZONE_PCT
  let oppRedZone := jsOrNum opponentStats.redZonePct DEFAULT_RED_ZONE_PCT
  let redZoneDiff := teamRedZone - oppRedZone
  thirdDownDiff * 0.05 + redZoneDiff * 0.03

/-- The prediction record of the efficiency model.  The source serializes
the predicted score as the string `"home-away"`; the two rounded components
are kept here directly. -/
structure EfficiencyPrediction where
  homeTeam : String
  awayTeam : String
  predictedWinner : String
  scoreHome : ℤ
  scoreAway : ℤ
  confidence : Confidence
  scoreDifference : ℕ
  homeEfficiency : ℚ
  awayEfficiency : ℚ
deriving DecidableEq, Repr

/-- `predictGame` from `efficiency.js`: `null` when the home stats, away
stats, or league average is missing; otherwise the score projection built
from league-average points, offensive/defensive strength, home-field
advantage, matchup advantages and situational adjustments, floored at 0 and
rounded, with confidence from the absolute score difference. -/
def predictGame (homeTeamStats awayTeamStats : Option EffTeamStats)
    (leagueAverage : Option EffLeagueAverage) (rankings : Rankings) :
    Option EfficiencyPrediction :=
  match homeTeamStats, awayTeamStats, leagueAverage with
  | some hts, some ats, some la =>
      let homeEfficiency := calculateEfficiencyRating (some hts) la
      let awayEfficiency := calculateEfficiencyRating (some ats) la
      let homeMatchup := calculateMatchupAdvantage hts ats rankings
      let awayMatchup := calculateMatchupAdvantage ats hts rankings
      let homeSituational := calculateSituationalAdjustment hts ats
      let awaySituational := calculateSituationalAdjustment ats hts
      let homeScore := jsOrQ la.avgPointsFor 23
      let awayScore := jsOrQ la.avgPointsFor 23
      let homeScore := homeScore + (hts.avgPointsFor - la.avgPointsFor) * 0.5
      let awayScore := awayScore + (ats.avgPointsFor - la.avgPointsFor) * 0.5
      let homeScore := homeScore - (ats.avgPointsAgainst - la.avgPointsAgainst) * 0.3
      let awayScore := awayScore - (hts.avgPointsAgainst - la.avgPointsAgainst) * 0.3
      let homeScore := homeScore + HOME_FIELD_ADVANTAGE
      let homeScore := homeScore + homeMatchup
      let awayScore := awayScore + awayMatchup
      let homeScore := homeScore + homeSituational
      let awayScore := awayScore + awaySituational
      let homeScoreR := jsRound (max 0 homeScore)
      let awayScoreR := jsRound (max 0 awayScore)
      let scoreDiff := (homeScoreR - awayScoreR).natAbs
      let predictedWinner := if homeScoreR > awayScoreR then hts.teamName else ats.teamName
      let confidence :=
        if scoreDiff ≥ 10 then Confidence.high
        else if scoreDiff ≥ 6 then Confidence.medium
        else Confidence.low
      some
        { homeTeam := hts.teamName
          awayTeam := ats.teamName
          predictedWinner := predictedWinner
          scoreHome := homeScoreR
          scoreAway := awayScoreR
          confidence := confidence
          scoreDifference := scoreDiff
          homeEfficiency := homeEfficiency
          awayEfficiency := awayEfficiency }
  | _, _, _ => none

/-! ## The unified predictor -/

/-- An upcoming game as the predictor receives it. -/
structure Game where
  id : String := ""
  date : String := ""
  homeTeam : String := ""
  awayTeam : String := ""
deriving DecidableEq, Repr

/-- The prediction record of the Elo model, as consumed by the combiner.
`elo.js` is not among the sources of this repository; only the shape of its
output (winner, a nonnegative rounded score pair, confidence, win
probabilities) is needed here. -/
structure EloPrediction where
  predictedWinner : String := ""
  scoreHome : ℤ := 0
  scoreAway : ℤ := 0
  confidence : Confidence := .low
  homeWinProbability : ℚ := 0
  awayWinProbability : ℚ := 0
deriving DecidableEq, Repr

/-- The combined prediction record `predict` returns.  The wall-clock
`timestamp` and the nested `models` display breakdown are presentation
detail and are not modelled. -/
structure CombinedPrediction where
  id : String := ""
  gameDate : String := ""
  homeTeam : String := ""
  awayTeam : String := ""
  predictedWinner : String := ""
  scoreHome : ℤ := 0
  scoreAway : ℤ := 0
  spread : ℤ := 0
  confidence : Confidence := .low
  checked : Bool := false
deriving DecidableEq, Repr

/-- The combining step of `predict` (the unified predictor), with the two
sub-model results as arguments.  The source computes
`eloPrediction = elo.predictGame(...)` and
`efficiencyPrediction = efficiency.predictGame(...)` first; `predict` below
does exactly that.  The sub-model scores travel through the `"home-away"`
string in the source; for the nonnegative integer scores the sub-models
produce, splitting that string on the dash recovers the pair, which is kept
directly here. -/
def predictCombine (game : Game) (eloPrediction : Option EloPrediction)
    (efficiencyPrediction : Option EfficiencyPrediction) : Option CombinedPrediction :=
  match eloPrediction, efficiencyPrediction with
  | some elo, some eff =>
      let eloWeight : ℚ := 0.6
      let efficiencyWeight : ℚ := 0.4
      let finalHomeScore := jsRound ((elo.scoreHome : ℚ) * eloWeight +
        (eff.scoreHome : ℚ) * efficiencyWeight)
      let finalAwayScore := jsRound ((elo.scoreAway : ℚ) * eloWeight +
        (eff.scoreAway : ℚ) * efficiencyWeight)
      let finalWinner := if finalHomeScore > finalAwayScore then game.homeTeam else game.awayTeam
      let eloConfLevel := confidenceLevel elo.confidence
      let effConfLevel := confidenceLevel eff.confidence
      let finalConfLevel := min eloConfLevel effConfLevel
      let finalConfidence :=
        if finalConfLevel = 3 then Confidence.high
        else if finalConfLevel = 2 then Confidence.medium
        else Confidence.low
      some
        { id := game.id
          gameDate := game.date
          homeTeam := game.homeTeam
          awayTeam := game.awayTeam
          predictedWinner := finalWinner
          scoreHome := finalHomeScore
          scoreAway := finalAwayScore
          spread := finalHomeScore - finalAwayScore
          confidence := finalConfidence
          checked := false }
  | _, _ => none

/-- The context `predict` receives: the Elo model (an external collaborator,
`elo.js` not being among the sources) as an abstract sub-model, and the
efficiency model's inputs. -/
structure Context where
  eloPredictGame : String → String → Option EloPrediction
  teamStats : List (String × EffTeamStats) := []
  leagueAverage : Option EffLeagueAverage := none
  rankings : Rankings := {}

/-- `{ ...teamStats[t], teamName: t }`: the stat record looked up for a team
with its name spliced in.  A missing entry yields a record carrying only the
team name; its numeric fields are modelled as the zero defaults (no claim
settled here depends on their values). -/
def statsWithName (ctx : Context) (t : String) : EffTeamStats :=
  { (ctx.teamStats.lookup t).getD {} with teamName := t }

/-- `predict` from the unified predictor: run both sub-models and combine
them with `predictCombine`. -/
def predict (game : Game) (context : Context) : Option CombinedPrediction :=
  predictCombine game
    (context.eloPredictGame game.homeTeam game.awayTeam)
    (predictGame (some (statsWithName context game.homeTeam))
      (some (statsWithName context game.awayTeam))
      context.leagueAverage context.rankings)

/-- `predictGames` from the unified predictor: the per-game loop, pushing
each successful prediction.  The source's `try`/`catch` confines any
per-game failure to that game; in this total embedding a failed prediction
is the `none` result, which is skipped exactly like the caught-and-logged
exception. -/
def predictGames (games : List Game) (context : Context) : List CombinedPrediction :=
  games.foldl
    (fun predictions game =>
      match predict game context with
      | some prediction => predictions ++ [prediction]
      | none => predictions)
    []

/-- An actual game result, as consumed by `checkPrediction`. -/
structure ActualResult where
  homeTeam : String := ""
  awayTeam : String := ""
  homeScore : ℚ := 0
  awayScore : ℚ := 0
deriving DecidableEq, Repr

/-- A checked prediction: every field of the prediction record, extended
with the actual outcome.  The source serializes `actualScore` as
`"home-away"`; the two components are kept directly.  The wall-clock
`checkedAt` is not modelled. -/
structure CheckedPrediction where
  id : String := ""
  gameDate : String := ""
  homeTeam : String := ""
  awayTeam : String := ""
  predictedWinner : String := ""
  scoreHome : ℤ := 0
  scoreAway : ℤ := 0
  spread : ℤ := 0
  confidence : Confidence := .low
  checked : Bool := false
  correct : Bool := false
  actualWinner : String := ""
  actualScoreHome : ℚ := 0
  actualScoreAway : ℚ := 0
  scoreError : ℚ := 0
deriving DecidableEq, Repr

/-- `checkPrediction` from the unified predictor: spread the input
prediction into a new record, set `checked`, and add the actual winner
(the home side exactly when its actual score is strictly higher), the
correctness flag, the actual score and the Manhattan score error. -/
def checkPrediction (prediction : CombinedPrediction) (actualResult : ActualResult) :
    CheckedPrediction :=
  let actualWinner :=
    if actualResult.homeScore > actualResult.awayScore then actualResult.homeTeam
    else actualResult.awayTeam
  let correct := prediction.predictedWinner = actualWinner
  let scoreError := |(prediction.scoreHome : ℚ) - actualResult.homeScore| +
    |(prediction.scoreAway : ℚ) - actualResult.awayScore|
  { id := prediction.id
    gameDate := prediction.gameDate
    homeTeam := prediction.homeTeam
    awayTeam := prediction.awayTeam
    predictedWinner := prediction.predictedWinner
    scoreHome := prediction.scoreHome
    scoreAway := prediction.scoreAway
    spread := prediction.spread
    confidence := prediction.confidence
    checked := true
    correct := decide correct
    actualWinner := actualWinner
    actualScoreHome := actualResult.homeScore
    actualScoreAway := actualResult.awayScore
    scoreError := scoreError }
/-! ## Verification of the claims -/

lemma predictGames_foldl (context : Context) (games : List Game)
    (acc : List CombinedPrediction) :
    games.foldl
      (fun predictions game =>
        match predict game context with
        | some prediction => predictions ++ [prediction]
        | none => predictions) acc
    = acc ++ games.filterMap (fun g => predict g context) := by
  induction games generalizing acc with
  | nil => simp
  | cons g gs ih =>
      simp only [List.foldl_cons, List.filterMap_cons]
      cases hp : predict g context with
      | none => simp only [hp]; rw [ih]
      | some p => simp only [hp]; rw [ih]; simp

/-- C8: `predictGames` returns exactly the successful predictions in input
order; a game whose prediction fails (yields no result) is excluded and does
not prevent any later game from being predicted — the batch never aborts. -/
theorem predictGames_partial_failure :
    (∀ (games : List Game) (context : Context),
      predictGames games context = games.filterMap (fun g => predict g context)) ∧
    (∀ (gs1 : List Game) (g : Game) (gs2 : List Game) (context : Context),
      predict g context = none →
        predictGames (gs1 ++ g :: gs2) context = predictGames (gs1 ++ gs2) context) := by
  have key : ∀ (games : List Game) (context : Context),
      predictGames games context = games.filterMap (fun g => predict g context) := by
    intro games context
    unfold predictGames
    simpa using predictGames_foldl context games []
  refine ⟨key, ?_⟩
  intro gs1 g gs2 context h
  rw [key, key]
  simp [List.filterMap_append, List.filterMap_cons, h]

/-- C2: the combined prediction's confidence tier equals the minimum of the
two sub-model confidences under high(3) > medium(2) > low(1); in particular
it never exceeds either sub-model's confidence. -/
theorem predictCombine_confidence_min (game : Game) (elo : EloPrediction)
    (eff : EfficiencyPrediction) :
    ∃ p, predictCombine game (some elo) (some eff) = some p ∧
      confidenceLevel p.confidence =
        min (confidenceLevel elo.confidence) (confidenceLevel eff.confidence) ∧
      confidenceLevel p.confidence ≤ confidenceLevel elo.confidence ∧
      confidenceLevel p.confidence ≤ confidenceLevel eff.confidence := by
  obtain ⟨ew, esh, esa, ec, ehp, eap⟩ := elo
  obtain ⟨fh, fa, fw, fsh, fsa, fc, fsd, fhe, fae⟩ := eff
  cases ec <;> cases fc <;>
    exact ⟨_, rfl, by norm_num [confidenceLevel], by norm_num [confidenceLevel],
      by norm_num [confidenceLevel]⟩

/-- C6: when the blended-and-rounded home score equals the blended away
score, `predict` names the away team as the winner (the tie falls through
the strict `>` comparison). -/
theorem predictCombine_tie_goes_to_away (game : Game) (elo : EloPrediction)
    (eff : EfficiencyPrediction)
    (h : jsRound ((elo.scoreHome : ℚ) * 0.6 + (eff.scoreHome : ℚ) * 0.4) =
         jsRound ((elo.scoreAway : ℚ) * 0.6 + (eff.scoreAway : ℚ) * 0.4)) :
    ∃ p, predictCombine game (some elo) (some eff) = some p ∧
      p.predictedWinner = game.awayTeam := by
  refine ⟨_, rfl, ?_⟩
  show (if jsRound ((elo.scoreHome : ℚ) * 0.6 + (eff.scoreHome : ℚ) * 0.4) >
          jsRound ((elo.scoreAway : ℚ) * 0.6 + (eff.scoreAway : ℚ) * 0.4)
        then game.homeTeam else game.awayTeam) = game.awayTeam
  rw [h]
  simp

/-- Witness for C6 at a concrete tie: both sub-models predict 20–20, so the
combined score is tied and the away team is returned. -/
theorem predictCombine_tie_goes_to_away_witness :
    ∃ p, predictCombine { id := "g1", date := "d1", homeTeam := "Home", awayTeam := "Away" }
        (some { predictedWinner := "Home", scoreHome := 20, scoreAway := 20,
                confidence := .high, homeWinProbability := 1/2, awayWinProbability := 1/2 })
        (some { homeTeam := "Home", awayTeam := "Away", predictedWinner := "Home",
                scoreHome := 20, scoreAway := 20, confidence := .high,
                scoreDifference := 0, homeEfficiency := 1500, awayEfficiency := 1500 })
      = some p ∧ p.predictedWinner = "Away" :=
  predictCombine_tie_goes_to_away _ _ _ rfl

/-- C7: the efficiency `predictGame` returns an absent result exactly when
the home aggregate, the away aggregate, or the league average is missing;
with all three present it returns a prediction record (it is a total
function — no exception). -/
theorem predictGame_missing_input (homeTeamStats awayTeamStats : Option EffTeamStats)
    (leagueAverage : Option EffLeagueAverage) (rankings : Rankings) :
    predictGame homeTeamStats awayTeamStats leagueAverage rankings = none ↔
      homeTeamStats = none ∨ awayTeamStats = none ∨ leagueAverage = none := by
  cases homeTeamStats <;> cases awayTeamStats <;> cases leagueAverage <;>
    simp [predictGame]

/-- C10: `calculateSituationalAdjustment` cannot distinguish a recorded 0%
from missing data (both coalesce to the 40/50 defaults), and when both teams
are at 0%-or-missing in a category, that category contributes exactly 0 to
the adjustment. -/
theorem calculateSituationalAdjustment_zero_as_missing (ts os : EffTeamStats) :
    (calculateSituationalAdjustment { ts with thirdDownPct := some 0 } os =
       calculateSituationalAdjustment { ts with thirdDownPct := none } os) ∧
    (calculateSituationalAdjustment { ts with redZonePct := some 0 } os =
       calculateSituationalAdjustment { ts with redZonePct := none } os) ∧
    ((ts.thirdDownPct = some 0 ∨ ts.thirdDownPct = none) →
      (os.thirdDownPct = some 0 ∨ os.thirdDownPct = none) →
        calculateSituationalAdjustment ts os =
          (jsOrNum ts.redZonePct DEFAULT_RED_ZONE_PCT -
            jsOrNum os.redZonePct DEFAULT_RED_ZONE_PCT) * 0.03) ∧
    ((ts.redZonePct = some 0 ∨ ts.redZonePct = none) →
      (os.redZonePct = some 0 ∨ os.redZonePct = none) →
        calculateSituationalAdjustment ts os =
          (jsOrNum ts.thirdDownPct DEFAULT_THIRD_DOWN_PCT -
            jsOrNum os.thirdDownPct DEFAULT_THIRD_DOWN_PCT) * 0.05) := by
  refine ⟨?_, ?_, ?_, ?_⟩
  · simp [calculateSituationalAdjustment, jsOrNum]
  · simp [calculateSituationalAdjustment, jsOrNum]
  · rintro (h1 | h1) (h2 | h2) <;>
      simp [calculateSituationalAdjustment, jsOrNum, h1, h2]
  · rintro (h1 | h1) (h2 | h2) <;>
      simp [calculateSituationalAdjustment, jsOrNum, h1, h2]

/-- The §8 scenario-4 prediction: "TeamA 24-20". -/
def examplePrediction : CombinedPrediction :=
  { id := "game1", gameDate := "2024-01-01", homeTeam := "TeamA", awayTeam := "TeamB",
    predictedWinner := "TeamA", scoreHome := 24, scoreAway := 20, spread := 4,
    confidence := .medium, checked := false }

/-- The §8 scenario-4 actual result: TeamA lost 20-24. -/
def exampleActual : ActualResult :=
  { homeTeam := "TeamA", awayTeam := "TeamB", homeScore := 20, awayScore := 24 }

/-- C3: `checkPrediction` sets `checked`, computes the Manhattan score
error, marks the prediction correct exactly when the predicted winner equals
the actual winner, names the side with the strictly higher actual score as
`actualWinner`, and returns a new record that preserves the input
prediction's fields (the input itself is untouched — the embedding is pure,
as is the source's `{ ...prediction }` copy).  On the 24-20 prediction
checked against an actual 20-24 it yields `correct = false` and
`scoreError = 8`. -/
theorem checkPrediction_spec :
    (∀ (p : CombinedPrediction) (r : ActualResult),
      (checkPrediction p r).checked = true ∧
      (checkPrediction p r).scoreError =
        |(p.scoreHome : ℚ) - r.homeScore| + |(p.scoreAway : ℚ) - r.awayScore| ∧
      ((checkPrediction p r).correct = true ↔
        p.predictedWinner = (checkPrediction p r).actualWinner) ∧
      (r.homeScore > r.awayScore → (checkPrediction p r).actualWinner = r.homeTeam) ∧
      (r.awayScore > r.homeScore → (checkPrediction p r).actualWinner = r.awayTeam) ∧
      (checkPrediction p r).id = p.id ∧
      (checkPrediction p r).predictedWinner = p.predictedWinner ∧
      (checkPrediction p r).scoreHome = p.scoreHome ∧
      (checkPrediction p r).scoreAway = p.scoreAway ∧
      (checkPrediction p r).confidence = p.confidence) ∧
    (checkPrediction examplePrediction exampleActual).correct = false ∧
    (checkPrediction examplePrediction exampleActual).scoreError = 8 := by
  refine ⟨?_, ?_, ?_⟩
  · intro p r
    refine ⟨rfl, rfl, ?_, ?_, ?_, rfl, rfl, rfl, rfl, rfl⟩
    · exact decide_eq_true_iff
    · intro h
      show (if r.homeScore > r.awayScore then r.homeTeam else r.awayTeam) = r.homeTeam
      rw [if_pos h]
    · intro h
      show (if r.homeScore > r.awayScore then r.homeTeam else r.awayTeam) = r.awayTeam
      rw [if_neg (lt_asymm h)]
  · with_unfolding_all decide
  · with_unfolding_all decide

/-- C4: when no team has `games > 0`, `calculateLeagueAverages` returns
exactly the fallback record 350/23/23/230/120, with every field a real
number (no division by zero is performed, no `NaN`). -/
theorem calculateLeagueAverages_fallback (teamAggregates : List (String × TeamAggregate))
    (h : ∀ p ∈ teamAggregates, p.2.games = 0) :
    calculateLeagueAverages teamAggregates =
      { avgTotalYards := some 350, avgPointsFor := some 23, avgPointsAgainst := some 23,
        avgPassingYards := some 230, avgRushingYards := some 120 } := by
  have hf : teamAggregates.filter (fun p => p.2.games > 0) = [] := by
    rw [List.filter_eq_nil_iff]
    intro p hp
    simp [h p hp]
  unfold calculateLeagueAverages
  rw [hf]
  rfl

/-- Witness for C4: two zero-game teams yield the fallback record. -/
theorem calculateLeagueAverages_fallback_witness :
    calculateLeagueAverages [("Arizona Cardinals", {}), ("Atlanta Falcons", {})] =
      { avgTotalYards := some 350, avgPointsFor := some 23, avgPointsAgainst := some 23,
        avgPassingYards := some 230, avgRushingYards := some 120 } :=
  calculateLeagueAverages_fallback _ (by decide)
lemma splitOnChar_of_not_mem (sep : Char) (cs : List Char) (h : sep ∉ cs) :
    splitOnChar sep cs = [cs] := by
  induction cs with
  | nil => rfl
  | cons c rest ih =>
      have hc : ¬(c = sep) := fun hc => h (hc ▸ List.mem_cons_self _ _)
      rw [splitOnChar]
      rw [ih (fun hm => h (List.mem_cons_of_mem _ hm))]
      simp [hc]

lemma splitOnChar_append (sep : Char) (A B : List Char) (hA : sep ∉ A) :
    splitOnChar sep (A ++ sep :: B) = A :: splitOnChar sep B := by
  induction A with
  | nil => simp [splitOnChar]
  | cons c rest ih =>
      have hc : ¬(c = sep) := fun hc => hA (hc ▸ List.mem_cons_self _ _)
      rw [List.cons_append, splitOnChar]
      rw [ih (fun hm => hA (List.mem_cons_of_mem _ hm))]
      simp [hc]

lemma jsParseInt_digits (s : String) (h1 : s.toList ≠ [])
    (h2 : ∀ c ∈ s.toList, c.isDigit) :
    jsParseInt s = .fin (digitsVal s.toList) := by
  obtain ⟨c, rest, hcr⟩ := List.exists_cons_of_ne_nil h1
  have hcd : c.isDigit := h2 c (by rw [hcr]; exact List.mem_cons_self _ _)
  have hsp : ¬(c = ' ') := by rintro rfl; exact absurd hcd (by decide)
  have hmn : ¬(c = '-') := by rintro rfl; exact absurd hcd (by decide)
  have hpl : ¬(c = '+') := by rintro rfl; exact absurd hcd (by decide)
  have hdw : s.toList.dropWhile (fun c => c = ' ') = s.toList := by
    rw [hcr, List.dropWhile_cons]
    simp [hsp]
  have htw : s.toList.takeWhile Char.isDigit = s.toList :=
    List.takeWhile_eq_self_iff.mpr h2
  have hne : (s.toList.isEmpty) = false := by
    rw [hcr]; rfl
  unfold jsParseInt
  rw [hdw, hcr]
  simp only [List.headD_cons, hmn, hpl, if_false]
  rw [← hcr, htw, hne]
  simp [one_mul]

/-- C5: on a value `"A-B"` with `A`, `B` nonempty digit strings,
`parseStatValue` returns the structured made/attempts record with
`made = A` and `attempts = B`; the percentage is `A/B*100` whenever `B`'s
numeric value is nonzero, and is `0` when `B` is the literal string `"0"`
(the divide-by-zero guard) — and the function returns a value in every
case, raising nothing. -/
theorem parseStatValue_made_attempts (A B : String)
    (hA1 : A.toList ≠ []) (hA2 : ∀ c ∈ A.toList, c.isDigit)
    (hB1 : B.toList ≠ []) (hB2 : ∀ c ∈ B.toList, c.isDigit) :
    ∃ pct, parseStatValue (.str (A ++ "-" ++ B)) =
        .madeAttempts (digitsVal A.toList) (digitsVal B.toList) pct ∧
      (B = "0" → pct = .fin 0) ∧
      (digitsVal B.toList ≠ 0 →
        pct = .fin ((digitsVal A.toList : ℚ) / (digitsVal B.toList : ℚ) * 100)) := by
  have hlist : (A ++ "-" ++ B).toList = A.toList ++ '-' :: B.toList := by
    show (A ++ "-" ++ B).data = A.data ++ '-' :: B.data
    rw [String.data_append, String.data_append]
    rw [show ("-" : String).data = ['-'] from by decide]
    simp
  have hAnd : '-' ∉ A.toList := fun hm => absurd (hA2 _ hm) (by decide)
  have hBnd : '-' ∉ B.toList := fun hm => absurd (hB2 _ hm) (by decide)
  have hsplit : jsSplit (A ++ "-" ++ B) '-' = [A, B] := by
    unfold jsSplit
    rw [hlist, splitOnChar_append _ _ _ hAnd, splitOnChar_of_not_mem _ _ hBnd]
    simp only [List.map_cons, List.map_nil]
    exact congrArg₂ (fun x y => [x, y]) (String.asString_toList A) (String.asString_toList B)
  have hcontains : (A ++ "-" ++ B).toList.contains '-' = true := by
    rw [hlist]
    simp
  have hmain : parseStatValue (.str (A ++ "-" ++ B)) =
      .madeAttempts (digitsVal A.toList) (digitsVal B.toList)
        (if B ≠ "0"
         then ((JSNum.fin (digitsVal A.toList)).div (JSNum.fin (digitsVal B.toList))).mul (.fin 100)
         else .fin 0) := by
    simp only [parseStatValue]
    rw [if_pos hcontains, hsplit]
    simp only [List.getD_cons_zero, List.getD_cons_succ]
    rw [jsParseInt_digits A hA1 hA2, jsParseInt_digits B hB1 hB2]
    rfl
  refine ⟨_, hmain, ?_, ?_⟩
  · intro hB0
    subst hB0
    simp
  · intro hBv
    have hBne : B ≠ "0" := by
      rintro rfl
      exact hBv (by decide)
    rw [if_pos hBne]
    have hq : ((digitsVal B.toList : ℚ)) ≠ 0 := by exact_mod_cast hBv
    simp [JSNum.div, JSNum.mul, hq, show digitsVal B.data ≠ 0 from hBv]

/-- Witness for C5 at `"25-35"`. -/
theorem parseStatValue_made_attempts_witness :
    ∃ pct, parseStatValue (.str ("25" ++ "-" ++ "35")) =
        .madeAttempts (digitsVal "25".toList) (digitsVal "35".toList) pct ∧
      (("35" : String) = "0" → pct = .fin 0) ∧
      (digitsVal "35".toList ≠ 0 →
        pct = .fin ((digitsVal "25".toList : ℚ) / (digitsVal "35".toList : ℚ) * 100)) :=
  parseStatValue_made_attempts "25" "35" (by decide) (by decide) (by decide) (by decide)

/-- C9: any string containing a dash anywhere takes the made-attempts
branch of `parseStatValue` and yields a structured record — never a
negative number.  In particular `"-7"` yields `made = 0`, `attempts = 7`
and a `NaN` percentage, because the text before the dash is empty. -/
theorem parseStatValue_dash_branch :
    (∀ s : String, s.toList.contains '-' = true →
      ∃ m a pct, parseStatValue (.str s) = .madeAttempts m a pct) ∧
    parseStatValue (.str "-7") = .madeAttempts 0 7 .nan := by
  constructor
  · intro s h
    have hs : parseStatValue (.str s) =
        .madeAttempts (jsParseInt ((jsSplit s '-').getD 0 "")).orZero
          (jsParseInt ((jsSplit s '-').getD 1 "")).orZero
          (if (jsSplit s '-').getD 1 "" ≠ "0"
           then ((jsParseInt ((jsSplit s '-').getD 0 "")).div
              (jsParseInt ((jsSplit s '-').getD 1 ""))).mul (.fin 100)
           else .fin 0) := by
      simp only [parseStatValue]
      rw [if_pos h]
    exact ⟨_, _, _, hs⟩
  · with_unfolding_all decide
/-- Following the spec's words ("pass-defense yards allowed"): the passing
yards a team allowed in a game are the passing yards recorded for its
opponent.  The aggregates built by `aggregateStats` do not record this
quantity at all — this definition exists only to compare the metric the
spec names with the ranking the code computes. -/
def specPassingYardsAllowed (game : GameStat) (teamName : String) : ℚ :=
  match (game.stats.map Prod.fst).find? (fun t => t ≠ teamName) with
  | some opponent => ((game.stats.lookup opponent).getD {}).passingYards.getD 0
  | none => 0

/-- A one-game season: Arizona gains 300 passing yards and allows 100;
Atlanta gains 100 and allows 300. -/
def c1Game : GameStat :=
  { stats := [("Arizona Cardinals",
                { passingYards := some 300, rushingYards := some 150,
                  totalYards := some 450 }),
              ("Atlanta Falcons",
                { passingYards := some 100, rushingYards := some 200,
                  totalYards := some 300 })],
    scores := some [("Arizona Cardinals", 27), ("Atlanta Falcons", 20)] }

/-- C1: the "pass defense" ranking of `calculateRankings` does not order
teams by passing yards allowed per game.  In this one-game season Arizona
allowed 100 passing yards and Atlanta 300, yet Arizona receives rank 2 and
Atlanta rank 1: the code ascends on `avgPassingYards`, each team's own
per-game passing yards gained (300 for Arizona, 100 for Atlanta), because
the aggregates never record passing yards allowed. -/
theorem calculateRankings_passDefense_ranks_own_passing_yards :
    specPassingYardsAllowed c1Game "Arizona Cardinals" = 100 ∧
    specPassingYardsAllowed c1Game "Atlanta Falcons" = 300 ∧
    ((aggregateStats [c1Game]).lookup "Arizona Cardinals").map
        (fun a => a.avgPassingYards) = some (some 300) ∧
    ((aggregateStats [c1Game]).lookup "Atlanta Falcons").map
        (fun a => a.avgPassingYards) = some (some 100) ∧
    (calculateRankings (aggregateStats [c1Game])).passDefense.lookup
        "Arizona Cardinals" = some 2 ∧
    (calculateRankings (aggregateStats [c1Game])).passDefense.lookup
        "Atlanta Falcons" = some 1 := by
  refine ⟨?_, ?_, ?_, ?_, ?_, ?_⟩ <;> with_unfolding_all decide

end NFLv2
